import Mathlib

/-!
Formal model of the AQI-collection and chat-cache core of the JanDrishti
pollution dashboard backend.  Each definition below is a shallow embedding of
a function from the Python sources (`backend/chat_cache.py`,
`backend/aqi_collector.py`, `backend/middleware/rate_limiter.py`,
`backend/middleware/cache.py`).  Machine floats are modelled as rationals,
Redis keys as strings, Redis string values as association lists, and Redis
sorted sets as score-ascending lists of member/score pairs.
-/

/-- Constant `ChatCache.RATE_LIMIT_WINDOW` (chat_cache.py line 90): 60 seconds. -/
def RATE_LIMIT_WINDOW : Nat := 60

/-- Constant `ChatCache.RATE_LIMIT_MAX` (chat_cache.py line 91): 10 messages per window. -/
def RATE_LIMIT_MAX : Nat := 10

/-- The Redis value at `chat:ratelimit:` + user id: an integer counter together
with the absolute expiry instant set by SETEX (in seconds; the code only ever
stores integral counts, so `Nat` is exact). -/
structure RLCounter where
  count : Nat
  expiresAt : Nat
deriving DecidableEq

/-- Fault-injection flags for the three Redis operations used by
`check_rate_limit`; a `true` flag makes the corresponding operation raise. -/
structure RLFaults where
  failGet : Bool
  failSetex : Bool
  failIncr : Bool
deriving DecidableEq

/-- A fault-free Redis connection. -/
def noFaults : RLFaults := ⟨false, false, false⟩

/-- Redis GET of the rate-limit key at instant `now`: an expired key reads as
absent. -/
def rlGet (s : Option RLCounter) (now : Nat) : Option Nat :=
  match s with
  | none => none
  | some c => if now < c.expiresAt then some c.count else none

/-- Operation `self.redis_client.get(rate_limit_key)` with fault injection. -/
def kvGet (f : RLFaults) (s : Option RLCounter) (now : Nat) :
    Except Unit (Option Nat) :=
  if f.failGet then Except.error () else Except.ok (rlGet s now)

/-- Operation `self.redis_client.setex(rate_limit_key, self.RATE_LIMIT_WINDOW, "1")`. -/
def kvSetex (f : RLFaults) (now : Nat) : Except Unit (Option RLCounter) :=
  if f.failSetex then Except.error ()
  else Except.ok (some ⟨1, now + RATE_LIMIT_WINDOW⟩)

/-- Operation `self.redis_client.incr(rate_limit_key)`: increments the stored integer
and preserves the key's TTL.  (The code reaches INCR only straight after GET
returned a live count.) -/
def kvIncr (f : RLFaults) (s : Option RLCounter) : Except Unit (Option RLCounter) :=
  if f.failIncr then Except.error ()
  else Except.ok (s.map fun c => ⟨c.count + 1, c.expiresAt⟩)

/-- Body of the `try:` block of `ChatCache.check_rate_limit`
(chat_cache.py lines 240-255). -/
def check_rate_limit_run (f : RLFaults) (s : Option RLCounter) (now : Nat) :
    Except Unit ((Bool × Nat) × Option RLCounter) := do
  let cur ← kvGet f s now
  match cur with
  | none => do
      let s1 ← kvSetex f now
      pure ((true, RATE_LIMIT_MAX - 1), s1)
  | some count =>
      if RATE_LIMIT_MAX ≤ count then
        pure ((false, 0), s)
      else do
        let s1 ← kvIncr f s
        pure ((true, RATE_LIMIT_MAX - count - 1), s1)

/-- Embedding of `ChatCache.check_rate_limit` (chat_cache.py lines 235-259).  Returns the
`(is_allowed, remaining_requests)` pair and the resulting stored counter; on
any storage error the `except` handler returns `(True, RATE_LIMIT_MAX)` and
the store is left as it was. -/
def check_rate_limit (f : RLFaults) (s : Option RLCounter) (now : Nat) :
    (Bool × Nat) × Option RLCounter :=
  match check_rate_limit_run f s now with
  | Except.ok r => r
  | Except.error _ => ((true, RATE_LIMIT_MAX), s)

/-- A sequence of `check_rate_limit` calls for one user at the given instants,
threading the stored counter; yields the list of `(allowed, remaining)`
results together with the final counter. -/
def runCalls (f : RLFaults) :
    Option RLCounter → List Nat → List (Bool × Nat) × Option RLCounter
  | s, [] => ([], s)
  | s, t :: ts =>
      let r := check_rate_limit f s t
      let rest := runCalls f r.2 ts
      (r.1 :: rest.1, rest.2)

/-- The expected result sequence of `n` in-window calls that start with the
counter holding `c`: each call reads the count, answers, and increments while
the count is below `RATE_LIMIT_MAX`. -/
def rlSpec : Nat → Nat → List (Bool × Nat)
  | _, 0 => []
  | c, n + 1 =>
      (if c < RATE_LIMIT_MAX then (true, RATE_LIMIT_MAX - c - 1) else (false, 0)) ::
        rlSpec (if c < RATE_LIMIT_MAX then c + 1 else c) n

/-- Constant `ChatCache.CACHE_TTL` (chat_cache.py line 87): 24 hours, in seconds. -/
def CACHE_TTL : Nat := 3600 * 24

/-- Constant `ChatCache.RECENT_MESSAGES_COUNT` (chat_cache.py line 88). -/
def RECENT_MESSAGES_COUNT : Nat := 50

/-- A chat message as cached.  `created_at` is the POSIX timestamp produced by
`datetime.fromisoformat(message["created_at"]).timestamp()`, modelled as an
exact rational.  The sorted-set member is `json.dumps(message)`, which is
injective on message dictionaries, so the member is modelled by the message
value itself. -/
structure ChatMessage where
  id : String
  created_at : ℚ
  body : String
deriving DecidableEq

/-- Insert a scored member into a score-ascending list, keeping it sorted by
score.  (Redis additionally breaks score ties lexicographically on the member
bytes; no theorem below involves a score tie, so a tie here simply keeps
insertion order.) -/
def zinsert {M : Type} (l : List (M × ℚ)) (m : M) (sc : ℚ) : List (M × ℚ) :=
  match l with
  | [] => [(m, sc)]
  | (m1, sc1) :: rest =>
      if sc < sc1 then (m, sc) :: (m1, sc1) :: rest
      else (m1, sc1) :: zinsert rest m sc

/-- Redis ZADD: replaces the member's previous score if the member is already
present, then inserts it in score order. -/
def zadd {M : Type} [DecidableEq M] (l : List (M × ℚ)) (m : M) (sc : ℚ) :
    List (M × ℚ) :=
  zinsert (l.filter fun p => decide (p.1 ≠ m)) m sc

/-- Redis ZREMRANGEBYRANK key 0 -(n+1): removes every member except the `n`
highest-ranked ones (a no-op when at most `n` members are present). -/
def ztrimKeep {M : Type} (n : Nat) (l : List (M × ℚ)) : List (M × ℚ) :=
  l.drop (l.length - n)

/-- Redis SET/SETEX into an association list keyed by strings: replaces the
existing entry in place or appends a fresh one. -/
def assocSet {α : Type} (l : List (String × α)) (k : String) (v : α) :
    List (String × α) :=
  match l with
  | [] => [(k, v)]
  | (k1, v1) :: rest =>
      if k1 = k then (k, v) :: rest else (k1, v1) :: assocSet rest k v

/-- Redis GET from an association list. -/
def assocGet {α : Type} (l : List (String × α)) (k : String) : Option α :=
  match l with
  | [] => none
  | (k1, v1) :: rest => if k1 = k then some v1 else assocGet rest k

/-- The slice of Redis that `cache_message` touches for one user: the
`chat:message:` + id string keys (payload plus TTL) and the
`chat:history:` + user sorted-set index with its TTL.  Distinct users use
disjoint keys, so one user's slice is modelled. -/
structure ChatStore where
  messages : List (String × (ChatMessage × Nat))
  index : List (ChatMessage × ℚ)
  indexTtl : Option Nat
deriving DecidableEq

/-- A fresh user's slice: nothing cached yet. -/
def chatEmpty : ChatStore := ⟨[], [], none⟩

/-- Embedding of `ChatCache.cache_message` (chat_cache.py lines 113-151): SETEXes the
message under its own key with `CACHE_TTL`, ZADDs it into the user's history
index scored by its timestamp, trims the index to the newest
`RECENT_MESSAGES_COUNT` members by rank, and refreshes the index TTL.  The
message always carries an `id` and a `created_at` here, matching the defaults
the code would otherwise fill in; the happy path returns `True`. -/
def cache_message (m : ChatMessage) (st : ChatStore) : ChatStore × Bool :=
  let st1 : ChatStore := { st with messages := assocSet st.messages m.id (m, CACHE_TTL) }
  let idx1 := zadd st1.index m m.created_at
  let idx2 := ztrimKeep RECENT_MESSAGES_COUNT idx1
  ({ st1 with index := idx2, indexTtl := some CACHE_TTL }, true)

/-- Fold of `cache_message` over a list of messages, oldest first. -/
def cacheMessages (st : ChatStore) (msgs : List ChatMessage) : ChatStore :=
  msgs.foldl (fun s m => (cache_message m s).1) st

/-- Sixty distinct demo messages with strictly increasing timestamps. -/
def demoMsgs : List ChatMessage :=
  (List.range 60).map fun i => ⟨toString i, (i : ℚ), "m"⟩

/-- A Python exception escaping one of the collector's functions.  The only
exception these embeddings produce is the `NameError` raised by a `logger.…`
call in aqi_collector.py: that module never binds `logger` (no
`import logging`, no assignment), so evaluating the name raises. -/
inductive PyErr
  | nameError
deriving DecidableEq

/-- The reading dictionary built by `fetch_aqi_for_ward` and the shape read
back by `calculate_daily_average`: every numeric field is optional because a
cached JSON object may lack the key or hold `null`. -/
structure WardReading where
  aqi : Option ℚ
  pm25 : Option ℚ
  pm10 : Option ℚ
  no2 : Option ℚ
  o3 : Option ℚ
  timestamp : String
  fetched_at : String
deriving DecidableEq

/-- One outcome of the WAQI provider call inside `fetch_aqi_for_ward`: either
the HTTP request raises `requests.RequestException` (unreachable host,
timeout, or a non-2xx status via `raise_for_status`), or it yields a parsed
JSON body with a `status` field, an optional top-level `data.aqi`, the
optional `data.iaqi.aqi.v` fallback, optional pollutant sub-indices and an
optional `data.time.s` timestamp. -/
inductive ProviderOutcome
  | httpError
  | response (status : String) (dataAqi iaqiAqi pm25 pm10 no2 o3 : Option ℚ)
      (timeS : Option String)
deriving DecidableEq

/-- Embedding of `AQICollector.fetch_aqi_for_ward` (aqi_collector.py lines 164-217),
faithful to the module as shipped, where `logger` is an undefined name: when
the token is missing or the coordinates fall outside [-90,90]x[-180,180], the
`logger.error` inside the `try` raises `NameError`, the `except Exception`
handler's own `logger.error` raises again, and the call aborts.  The same
happens in the `except requests.RequestException` handler and after a
provider status other than `"ok"`.  Only the missing-AQI branch (lines
200-201, a bare `return None`) and the success branch return normally. -/
def fetch_aqi_for_ward (tokenSet : Bool) (lat lon : ℚ) (out : ProviderOutcome)
    (nowIso : String) : Except PyErr (Option WardReading) :=
  if !tokenSet then Except.error PyErr.nameError
  else if ¬(-90 ≤ lat ∧ lat ≤ 90 ∧ -180 ≤ lon ∧ lon ≤ 180) then
    Except.error PyErr.nameError
  else
    match out with
    | ProviderOutcome.httpError => Except.error PyErr.nameError
    | ProviderOutcome.response status dataAqi iaqiAqi pm25 pm10 no2 o3 timeS =>
        if status ≠ "ok" then Except.error PyErr.nameError
        else
          match (match dataAqi with | some a => some a | none => iaqiAqi) with
          | none => Except.ok none
          | some a =>
              Except.ok (some ⟨some a, pm25, pm10, no2, o3, timeS.getD nowIso, nowIso⟩)

/-- A monitored ward's static descriptor (a row of `selected_wards`). -/
structure Ward where
  ward_name : String
  ward_no : String
  latitude : ℚ
  longitude : ℚ
deriving DecidableEq

/-- The pieces of `datetime.utcnow()` used at storage time: the formatted
date, the hour, the POSIX timestamp used as the sorted-set score, and the ISO
string. -/
structure NowInfo where
  dateStr : String
  hour : Nat
  epoch : ℚ
  iso : String
deriving DecidableEq

/-- The slice of Redis the collector writes: single-hour string keys (reading
plus TTL) and per-day sorted sets with their optional TTL.  Day-set members
are `json.dumps` of reading dictionaries; the dumps/loads round trip is the
identity and injective, so members are modelled by the reading values. -/
structure AqiStore where
  hourly : List (String × (WardReading × Nat))
  daySets : List (String × (List (WardReading × ℚ) × Option Nat))
deriving DecidableEq

/-- Key `aqi:hourly:` + ward + `:` + date + `:` + hour (aqi_collector.py line 233). -/
def hourlyKey (ward_no dateStr : String) (hour : Nat) : String :=
  "aqi:hourly:" ++ ward_no ++ ":" ++ dateStr ++ ":" ++ toString hour

/-- Key `aqi:hourly:` + ward + `:` + date (aqi_collector.py line 241). -/
def dayKey (ward_no dateStr : String) : String :=
  "aqi:hourly:" ++ ward_no ++ ":" ++ dateStr

/-- Embedding of `AQICollector.store_hourly_data_in_redis` (aqi_collector.py lines
219-246).  Returns the updated store and the exception, if any, escaping the
call: for a null reading it returns immediately; otherwise it SETEXes the
single-hour key (TTL 2 days), ZADDs the reading into the day set scored by
the fetch epoch, EXPIREs the day set to 2 days — and then its final
`logger.info` raises `NameError` (undefined name), after all three writes
have taken effect. -/
def store_hourly_data_in_redis (ward : Ward) (aqi_data : Option WardReading)
    (now : NowInfo) (st : AqiStore) : AqiStore × Option PyErr :=
  match aqi_data with
  | none => (st, none)
  | some r =>
      let key := hourlyKey ward.ward_no now.dateStr now.hour
      let st1 : AqiStore := { st with hourly := assocSet st.hourly key (r, 86400 * 2) }
      let day := dayKey ward.ward_no now.dateStr
      let old := ((assocGet st1.daySets day).map Prod.fst).getD []
      let st2 : AqiStore :=
        { st1 with daySets := assocSet st1.daySets day (zadd old r now.epoch, some (86400 * 2)) }
      (st2, some PyErr.nameError)

/-- Embedding of `AQICollector.get_hourly_data_from_redis` (aqi_collector.py lines
248-265): ZRANGE 0 -1 of the day set, JSON-decoding each member and skipping
entries that fail to decode; members were written by
`store_hourly_data_in_redis`, so decoding succeeds here. -/
def get_hourly_data_from_redis (ward_no : String) (dateStr : String)
    (st : AqiStore) : List WardReading :=
  match assocGet st.daySets (dayKey ward_no dateStr) with
  | none => []
  | some (entries, _) => entries.map Prod.fst

/-- Any `logger.…` statement in aqi_collector.py: the module never binds
`logger`, so the call raises `NameError`. -/
def loggerCall : Except PyErr Unit := Except.error PyErr.nameError

/-- The per-ward loop of `fetch_and_store_hourly_data` (aqi_collector.py
lines 338-350) followed by the completion log lines (352-354).  No statement
of the loop body sits inside a `try`, so the first exception aborts the whole
batch; every iteration begins with a `logger.info` call. -/
def fetch_and_store_loop (tokenSet : Bool) (oc : Ward → ProviderOutcome)
    (now : NowInfo) :
    List Ward → AqiStore → Nat → AqiStore × Except PyErr Nat
  | [], st, cnt =>
      match loggerCall with
      | Except.error e => (st, Except.error e)
      | Except.ok _ => (st, Except.ok cnt)
  | w :: ws, st, cnt =>
      match loggerCall with
      | Except.error e => (st, Except.error e)
      | Except.ok _ =>
          match fetch_aqi_for_ward tokenSet w.latitude w.longitude (oc w) now.iso with
          | Except.error e => (st, Except.error e)
          | Except.ok none =>
              match loggerCall with
              | Except.error e => (st, Except.error e)
              | Except.ok _ => fetch_and_store_loop tokenSet oc now ws st cnt
          | Except.ok (some r) =>
              let res := store_hourly_data_in_redis w (some r) now st
              match res.2 with
              | some e => (res.1, Except.error e)
              | none => fetch_and_store_loop tokenSet oc now ws res.1 (cnt + 1)

/-- Embedding of `AQICollector.fetch_and_store_hourly_data` (aqi_collector.py lines
329-354).  Its very first statement is `logger.info(...)`, and the module
never defines `logger`, so the call raises `NameError` before any ward is
processed; the store is untouched. -/
def fetch_and_store_hourly_data (tokenSet : Bool) (wards : List Ward)
    (oc : Ward → ProviderOutcome) (now : NowInfo) (st : AqiStore) :
    AqiStore × Except PyErr Nat :=
  match loggerCall with
  | Except.error e => (st, Except.error e)
  | Except.ok _ => fetch_and_store_loop tokenSet oc now wards st 0

/-- The dictionary returned by `calculate_daily_average`. -/
structure DailyAggregate where
  avg_aqi : ℚ
  min_aqi : ℚ
  max_aqi : ℚ
  avg_pm25 : Option ℚ
  avg_pm10 : Option ℚ
  avg_no2 : Option ℚ
  avg_o3 : Option ℚ
  hourly_readings_count : Nat
deriving DecidableEq

/-- Embedding of `AQICollector.calculate_daily_average` (aqi_collector.py lines 267-292):
`None` for an empty reading list or when no reading has a non-null AQI;
otherwise mean/min/max over the non-null AQI values (Python's `min`/`max`
over a non-empty list is a fold from its head) and, independently per
pollutant, the mean over the readings where that pollutant is non-null —
`None`, not zero, when that series is empty. -/
def calculate_daily_average (hourly_readings : List WardReading) :
    Option DailyAggregate :=
  if hourly_readings.isEmpty then none
  else
    let pm25_values := hourly_readings.filterMap (fun r => r.pm25)
    let pm10_values := hourly_readings.filterMap (fun r => r.pm10)
    let no2_values := hourly_readings.filterMap (fun r => r.no2)
    let o3_values := hourly_readings.filterMap (fun r => r.o3)
    match hourly_readings.filterMap (fun r => r.aqi) with
    | [] => none
    | a :: rest =>
        some {
          avg_aqi := (a :: rest).sum / ((a :: rest).length : ℚ)
          min_aqi := rest.foldl min a
          max_aqi := rest.foldl max a
          avg_pm25 := if pm25_values.isEmpty then none
                      else some (pm25_values.sum / (pm25_values.length : ℚ))
          avg_pm10 := if pm10_values.isEmpty then none
                      else some (pm10_values.sum / (pm10_values.length : ℚ))
          avg_no2 := if no2_values.isEmpty then none
                     else some (no2_values.sum / (no2_values.length : ℚ))
          avg_o3 := if o3_values.isEmpty then none
                    else some (o3_values.sum / (o3_values.length : ℚ))
          hourly_readings_count := hourly_readings.length }

/-- The paths exempt from rate limiting (rate_limiter.py line 27). -/
def EXEMPT_PATHS : List String :=
  ["/", "/api/health", "/docs", "/redoc", "/openapi.json"]

/-- One entry of the middleware's rate-limit table. -/
structure RateConfig where
  requests : Nat
  window : Nat
deriving DecidableEq

/-- The `RATE_LIMITS` table (rate_limiter.py lines 15-22), in dict insertion
order; the `default` entry is kept in the table as in the source and skipped
by the matching loop. -/
def RATE_LIMITS : List (String × RateConfig) :=
  [("/api/auth/login", ⟨5, 60⟩),
   ("/api/auth/signup", ⟨3, 60⟩),
   ("/api/aqi/feed/", ⟨30, 60⟩),
   ("/api/aqi/hourly/", ⟨60, 60⟩),
   ("/api/aqi/daily", ⟨30, 60⟩),
   ("default", ⟨100, 60⟩)]

/-- Entry `RATE_LIMITS["default"]`. -/
def defaultRateLimit : RateConfig := ⟨100, 60⟩

/-- Python's `str.startswith`, on the character data (semantically identical
to `String.startsWith`, stated structurally so that ground instances reduce). -/
def pyStartsWith (s pfx : String) : Bool :=
  pfx.data.isPrefixOf s.data

/-- The config-selection loop (rate_limiter.py lines 31-35): the first
non-default entry whose key prefixes the path wins, else the default. -/
def findRateLimit (path : String) : RateConfig :=
  match RATE_LIMITS.find? (fun pc => decide (pc.1 ≠ "default") && pyStartsWith path pc.1) with
  | some pc => pc.2
  | none => defaultRateLimit

/-- The parts of a Starlette request the two middlewares inspect. -/
structure HttpRequest where
  method : String
  path : String
  query : String
  clientHost : Option String
  authHeader : Option String
deriving DecidableEq

/-- An HTTP response: status code, body, headers.  The downstream handler's
(`call_next`) response is passed to the middleware embeddings as a value. -/
structure HttpResponse where
  status : Nat
  body : String
  headers : List (String × String)
deriving DecidableEq

/-- Client identification (rate_limiter.py lines 37-48): the client address,
refined to address:path when a Bearer authorization header is present. -/
def clientIdOf (req : HttpRequest) : String :=
  let base := match req.clientHost with
              | some h => h
              | none => "unknown"
  match req.authHeader with
  | some a => if pyStartsWith a "Bearer " then base ++ ":" ++ req.path else base
  | none => base

/-- Redis GET of a middleware rate-limit counter at instant `now`; an expired
key reads as absent. -/
def mwGet (store : List (String × RLCounter)) (k : String) (now : Nat) :
    Option Nat :=
  match assocGet store k with
  | none => none
  | some c => if now < c.expiresAt then some c.count else none

/-- Operation `setex(rate_limit_key, rate_limit["window"], "1")` (rate_limiter.py line 60). -/
def mwSetex (store : List (String × RLCounter)) (k : String) (window now : Nat) :
    List (String × RLCounter) :=
  assocSet store k ⟨1, now + window⟩

/-- Operation `incr(rate_limit_key)` (rate_limiter.py line 78): increments the counter,
preserving its TTL.  (The middleware issues INCR only straight after a live
GET, so the missing-key case is unreachable there.) -/
def mwIncr (store : List (String × RLCounter)) (k : String) :
    List (String × RLCounter) :=
  match assocGet store k with
  | some c => assocSet store k ⟨c.count + 1, c.expiresAt⟩
  | none => store

/-- The three `X-RateLimit-*` headers appended to a passed-through response
(rate_limiter.py lines 84-87). -/
def addRateHeaders (resp : HttpResponse) (cfg : RateConfig) (remaining now : Nat) :
    HttpResponse :=
  { resp with headers := resp.headers ++
      [("X-RateLimit-Limit", toString cfg.requests),
       ("X-RateLimit-Remaining", toString remaining),
       ("X-RateLimit-Reset", toString (now + cfg.window))] }

/-- The 429 response built at rate_limiter.py lines 67-75. -/
def tooManyRequestsResponse (cfg : RateConfig) : HttpResponse :=
  ⟨429, "Rate Limit Exceeded", [("Retry-After", toString cfg.window)]⟩

/-- Embedding of `RateLimitMiddleware.dispatch` (rate_limiter.py lines 25-94).  `next` is
the downstream `call_next` result; `storeFails` injects a storage failure
anywhere inside the `try` of lines 51-94, whose `except` handler lets the
request through unchanged (fail-open). -/
def rate_limit_dispatch (req : HttpRequest) (next : HttpResponse)
    (store : List (String × RLCounter)) (now : Nat) (storeFails : Bool) :
    HttpResponse × List (String × RLCounter) :=
  if req.path ∈ EXEMPT_PATHS then (next, store)
  else
    let cfg := findRateLimit req.path
    let key := "ratelimit:" ++ req.path ++ ":" ++ clientIdOf req
    if storeFails then (next, store)
    else
      match mwGet store key now with
      | none =>
          (addRateHeaders next cfg (cfg.requests - 1) now,
           mwSetex store key cfg.window now)
      | some count =>
          if cfg.requests ≤ count then (tooManyRequestsResponse cfg, store)
          else
            (addRateHeaders next cfg (cfg.requests - count - 1) now,
             mwIncr store key)

/-- The per-route-prefix TTL table of the response cache (cache.py lines
16-21), in dict insertion order. -/
def CACHE_TTL_TABLE : List (String × Nat) :=
  [("/api/aqi/feed/", 300),
   ("/api/aqi/hourly/", 60),
   ("/api/aqi/daily", 3600),
   ("/api/aqi/wards", 3600)]

/-- The TTL-selection loop (cache.py lines 30-37): first matching prefix. -/
def findCacheTtl (path : String) : Option Nat :=
  (CACHE_TTL_TABLE.find? (fun pt => pyStartsWith path pt.1)).map Prod.snd

/-- Insertion into an ascending list of strings. -/
def insertSorted (s : String) : List String → List String
  | [] => [s]
  | t :: ts => if s ≤ t then s :: t :: ts else t :: insertSorted s ts

/-- Python's `sorted` on the query fragments, as insertion sort. -/
def sortStrings : List String → List String
  | [] => []
  | s :: ss => insertSorted s (sortStrings ss)

/-- Embedding of `CacheMiddleware._generate_cache_key` (cache.py lines 106-116): the MD5
hex digest of path-plus-sorted-query is modelled by the hashed string itself
(the digest is treated as injective on the inputs occurring here). -/
def generate_cache_key (req : HttpRequest) : String :=
  let parts := if req.query = "" then [req.path]
               else req.path :: sortStrings (req.query.splitOn "&")
  "cache:api:" ++ String.intercalate "|" parts

/-- One cached response blob, as serialised at cache.py lines 71-75. -/
structure CachedBlob where
  content : String
  status_code : Nat
  headers : List (String × String)
deriving DecidableEq

/-- Embedding of `CacheMiddleware.dispatch` (cache.py lines 24-104).  Returns the response,
the resulting cache store (key to blob and TTL), and how many times the
downstream handler ran.  In the module as shipped the name `JSONResponse` is
never imported (only `Response` is, line 7), so both places that construct a
`JSONResponse` raise `NameError`:
on a cache hit (lines 47-54) the `NameError` is caught by the outer
`except Exception` (lines 101-104), which logs and falls back to
`call_next` — the cached blob is never returned and the handler runs; on a
cache miss with a 200 response (lines 60-89) the blob is stored first (line
76), then the `NameError` from line 85 is caught by the inner `except`
(lines 90-97), which returns the handler's own body without any `X-Cache`
header.  The cached routes return JSON bodies, so `json.loads(response_body)`
succeeds. -/
def cache_dispatch (req : HttpRequest) (next : HttpResponse)
    (store : List (String × (CachedBlob × Nat))) :
    HttpResponse × List (String × (CachedBlob × Nat)) × Nat :=
  if req.method ≠ "GET" then (next, store, 1)
  else
    match findCacheTtl req.path with
    | none => (next, store, 1)
    | some ttl =>
        let key := generate_cache_key req
        match assocGet store key with
        | some _ => (next, store, 1)
        | none =>
            if next.status = 200 then
              (next, assocSet store key (⟨next.body, next.status, next.headers⟩, ttl), 1)
            else (next, store, 1)

/-- Three demo readings: AQI present in the first and third only, PM2.5 in
the first two, NO2 in the second only, PM10 and O3 nowhere. -/
def demoReadings : List WardReading :=
  [⟨some 100, some 80, none, none, none, "t1", "f1"⟩,
   ⟨none, some 60, none, some 20, none, "t2", "f2"⟩,
   ⟨some 50, none, none, none, none, "t3", "f3"⟩]

/-- The aggregate of `demoReadings`. -/
def demoAgg : DailyAggregate := ⟨75, 50, 100, some 70, none, some 20, none, 3⟩

/-- A GET request for a cacheable route with no query string. -/
def demoDailyReq : HttpRequest := ⟨"GET", "/api/aqi/daily", "", some "9.9.9.9", none⟩

/-- A response blob previously stored by the cache middleware. -/
def demoCachedBlob : CachedBlob := ⟨"cached-json", 200, []⟩

/-- A cache store already holding the blob for `demoDailyReq`. -/
def demoCacheStore : List (String × (CachedBlob × Nat)) :=
  [(generate_cache_key demoDailyReq, (demoCachedBlob, 3600))]

/-- A fresh downstream handler response, distinct from the cached blob. -/
def demoNext : HttpResponse := ⟨200, "fresh-from-handler", []⟩

/-- Computation rule: a GET that sees no live counter answers
`(True, RATE_LIMIT_MAX - 1)` and SETEXes the counter to 1 for one window. -/
theorem check_rl_fresh (s : Option RLCounter) (t : Nat) (h : rlGet s t = none) :
    check_rate_limit noFaults s t
      = ((true, RATE_LIMIT_MAX - 1), some ⟨1, t + RATE_LIMIT_WINDOW⟩) := by
  unfold check_rate_limit check_rate_limit_run kvGet kvSetex
  simp [noFaults, h, bind, Except.bind, pure, Except.pure]

/-- Computation rule: a live count below the maximum is incremented and the
call answers `(True, RATE_LIMIT_MAX - count - 1)`. -/
theorem check_rl_low (k e t : Nat) (hlt : t < e) (hc : k < RATE_LIMIT_MAX) :
    check_rate_limit noFaults (some ⟨k, e⟩) t
      = ((true, RATE_LIMIT_MAX - k - 1), some ⟨k + 1, e⟩) := by
  unfold check_rate_limit check_rate_limit_run kvGet kvIncr rlGet
  simp [noFaults, hlt, Nat.not_le.mpr hc, bind, Except.bind, pure, Except.pure]

/-- Computation rule: a live count at or above the maximum is rejected with
`(False, 0)` and the stored counter is not touched. -/
theorem check_rl_high (k e t : Nat) (hlt : t < e) (hc : RATE_LIMIT_MAX ≤ k) :
    check_rate_limit noFaults (some ⟨k, e⟩) t = ((false, 0), some ⟨k, e⟩) := by
  unfold check_rate_limit check_rate_limit_run kvGet rlGet
  simp [noFaults, hlt, hc, bind, Except.bind, pure, Except.pure]

/-- Invariant of a run of in-window calls starting from a live counter `k`:
the answers follow `rlSpec` and the final count is capped at the maximum. -/
theorem runCalls_window (e : Nat) :
    ∀ (ts : List Nat) (k : Nat), 1 ≤ k → k ≤ RATE_LIMIT_MAX →
      (∀ t ∈ ts, t < e) →
      runCalls noFaults (some ⟨k, e⟩) ts
        = (rlSpec k ts.length, some ⟨min (k + ts.length) RATE_LIMIT_MAX, e⟩) := by
  intro ts
  induction ts with
  | nil =>
      intro k hk1 hk2 _
      simp [runCalls, rlSpec, min_eq_left hk2]
  | cons t ts ih =>
      intro k hk1 hk2 hts
      have ht : t < e := hts t (List.mem_cons_self t ts)
      have hts1 : ∀ x ∈ ts, x < e := fun x hx => hts x (List.mem_cons_of_mem t hx)
      by_cases hc : k < RATE_LIMIT_MAX
      · rw [runCalls, check_rl_low k e t ht hc]
        rw [ih (k + 1) (by omega) (by omega) hts1]
        simp only [rlSpec, hc, if_true, List.length_cons]
        have harith : k + 1 + ts.length = k + (ts.length + 1) := by omega
        rw [harith]
      · have hk10 : k = RATE_LIMIT_MAX := by omega
        subst hk10
        rw [runCalls, check_rl_high RATE_LIMIT_MAX e t ht (le_refl _)]
        rw [ih RATE_LIMIT_MAX hk1 hk2 hts1]
        simp only [rlSpec, hc, if_false, List.length_cons]
        have h1 : min (RATE_LIMIT_MAX + ts.length) RATE_LIMIT_MAX = RATE_LIMIT_MAX :=
          min_eq_right (by omega)
        have h2 : min (RATE_LIMIT_MAX + (ts.length + 1)) RATE_LIMIT_MAX = RATE_LIMIT_MAX :=
          min_eq_right (by omega)
        rw [h1, h2]

/-- Indexing into the expected answer sequence `rlSpec`. -/
theorem rlSpec_get :
    ∀ (n : Nat) (k i : Nat), i < n →
      (rlSpec k n).get? i
        = some (if k + i < RATE_LIMIT_MAX
                then (true, RATE_LIMIT_MAX - (k + i) - 1) else (false, 0)) := by
  intro n
  induction n with
  | zero => intro k i h; omega
  | succ n ih =>
      intro k i h
      cases i with
      | zero => simp [rlSpec]
      | succ i =>
          rw [rlSpec]
          by_cases hc : k < RATE_LIMIT_MAX
          · simp only [hc, if_true, List.get?_cons_succ]
            rw [ih (k + 1) i (by omega)]
            have harith : k + 1 + i = k + (i + 1) := by omega
            rw [harith]
          · simp only [hc, if_false, List.get?_cons_succ]
            rw [ih k i (by omega)]
            have h1 : ¬ k + i < RATE_LIMIT_MAX := by omega
            have h2 : ¬ k + (i + 1) < RATE_LIMIT_MAX := by omega
            simp [h1, h2]

/-- C1: for a fresh user, a sequence of `check_rate_limit` calls within one
60-second window answers `(True, RATE_LIMIT_MAX - i - 1)` — remaining
9, 8, ..., 0 — for calls `i = 0..9`, answers `(False, 0)` for every further
in-window call; a rejected call leaves the stored counter untouched, the
count never exceeds the maximum, and the first call after the window's expiry
answers `(True, 9)` again. -/
theorem chat_rate_limit_fixed_window (t0 : Nat) (rest : List Nat) (u : Nat)
    (hrest : ∀ t ∈ rest, t < t0 + RATE_LIMIT_WINDOW)
    (hu : t0 + RATE_LIMIT_WINDOW ≤ u) :
    (∀ i, i < rest.length + 1 →
        (runCalls noFaults none (t0 :: rest)).1.get? i
          = some (if i < RATE_LIMIT_MAX
                  then (true, RATE_LIMIT_MAX - i - 1) else (false, 0)))
    ∧ (runCalls noFaults none (t0 :: rest)).2
        = some ⟨min (1 + rest.length) RATE_LIMIT_MAX, t0 + RATE_LIMIT_WINDOW⟩
    ∧ (∀ (c : RLCounter) (v : Nat), RATE_LIMIT_MAX ≤ c.count → v < c.expiresAt →
        check_rate_limit noFaults (some c) v = ((false, 0), some c))
    ∧ (check_rate_limit noFaults (runCalls noFaults none (t0 :: rest)).2 u).1
        = (true, 9) := by
  have hrun : runCalls noFaults none (t0 :: rest)
      = ((true, RATE_LIMIT_MAX - 1) :: rlSpec 1 rest.length,
         some ⟨min (1 + rest.length) RATE_LIMIT_MAX, t0 + RATE_LIMIT_WINDOW⟩) := by
    rw [runCalls, check_rl_fresh none t0 rfl,
        runCalls_window (t0 + RATE_LIMIT_WINDOW) rest 1 (le_refl 1)
          (by norm_num [RATE_LIMIT_MAX]) hrest]
  refine ⟨?_, ?_, ?_, ?_⟩
  · intro i hi
    rw [hrun]
    cases i with
    | zero => norm_num [RATE_LIMIT_MAX]
    | succ j =>
        simp only [List.get?_cons_succ]
        rw [rlSpec_get rest.length 1 j (by omega)]
        rw [Nat.add_comm 1 j]
  · rw [hrun]
  · intro c v hc hv
    exact check_rl_high c.count c.expiresAt v hv hc
  · rw [hrun]
    have hnone : rlGet (some ⟨min (1 + rest.length) RATE_LIMIT_MAX,
        t0 + RATE_LIMIT_WINDOW⟩) u = none := by
      simp [rlGet, Nat.not_lt.mpr hu]
    rw [check_rl_fresh _ u hnone]
    norm_num [RATE_LIMIT_MAX]

/-- Witness for C1: twelve calls at instant 0 exhaust the window, and the
next call at instant 60 is allowed again with remaining 9. -/
theorem chat_rate_limit_fixed_window_witness :
    (check_rate_limit noFaults (runCalls noFaults none (0 :: List.replicate 11 0)).2 60).1
      = (true, 9) :=
  (chat_rate_limit_fixed_window 0 (List.replicate 11 0) 60
    (by intro t ht; have h := List.eq_of_mem_replicate ht; subst h; decide)
    (by decide)).2.2.2

/-- C7: if any Redis operation performed inside `check_rate_limit` raises —
the GET, the SETEX of a fresh window, or the INCR of a live count — the
`except` handler fails open and the call returns
`(True, RATE_LIMIT_MAX)`, i.e. allowed with the full maximum remaining. -/
theorem chat_rate_limit_fail_open (f : RLFaults) (s : Option RLCounter) (now : Nat) :
    (f.failGet = true → check_rate_limit f s now = ((true, RATE_LIMIT_MAX), s))
    ∧ (f.failGet = false → rlGet s now = none → f.failSetex = true →
        check_rate_limit f s now = ((true, RATE_LIMIT_MAX), s))
    ∧ (f.failGet = false → f.failIncr = true →
        ∀ k, rlGet s now = some k → k < RATE_LIMIT_MAX →
          check_rate_limit f s now = ((true, RATE_LIMIT_MAX), s)) := by
  refine ⟨?_, ?_, ?_⟩
  · intro hg
    unfold check_rate_limit check_rate_limit_run kvGet
    simp [hg, bind, Except.bind]
  · intro hg hnone hs
    unfold check_rate_limit check_rate_limit_run kvGet kvSetex
    simp [hg, hnone, hs, bind, Except.bind]
  · intro hg hi k hk hklt
    unfold check_rate_limit check_rate_limit_run kvGet kvIncr
    simp [hg, hk, hi, Nat.not_le.mpr hklt, bind, Except.bind]

/-- Witness for C7: a failing GET on a fresh user yields `(True, 10)`. -/
theorem chat_rate_limit_fail_open_witness :
    check_rate_limit ⟨true, false, false⟩ none 0 = ((true, RATE_LIMIT_MAX), none) :=
  (chat_rate_limit_fail_open ⟨true, false, false⟩ none 0).1 rfl

/-- Trimming to the top `n` ranks leaves at most `n` members. -/
theorem ztrimKeep_length_le {M : Type} (n : Nat) (l : List (M × ℚ)) :
    (ztrimKeep n l).length ≤ n := by
  simp [ztrimKeep]
  omega

/-- Inserting a score not below every present score appends at the end. -/
theorem zinsert_append {M : Type} (l : List (M × ℚ)) (m : M) (sc : ℚ)
    (h : ∀ p ∈ l, p.2 ≤ sc) : zinsert l m sc = l ++ [(m, sc)] := by
  induction l with
  | nil => rfl
  | cons p rest ih =>
      obtain ⟨m1, sc1⟩ := p
      have h1 : ¬ sc < sc1 := not_lt.mpr (h (m1, sc1) (List.mem_cons_self _ _))
      simp only [zinsert, h1, if_false, List.cons_append]
      rw [ih (fun q hq => h q (List.mem_cons_of_mem _ hq))]

/-- Removing an absent member is a no-op. -/
theorem filter_ne_self {M : Type} [DecidableEq M] (l : List (M × ℚ)) (m : M)
    (h : ∀ p ∈ l, p.1 ≠ m) : (l.filter fun p => decide (p.1 ≠ m)) = l :=
  List.filter_eq_self.mpr (fun p hp => decide_eq_true (h p hp))

/-- ZADD of a fresh member whose score dominates the set appends at the end. -/
theorem zadd_append {M : Type} [DecidableEq M] (l : List (M × ℚ)) (m : M) (sc : ℚ)
    (hne : ∀ p ∈ l, p.1 ≠ m) (hle : ∀ p ∈ l, p.2 ≤ sc) :
    zadd l m sc = l ++ [(m, sc)] := by
  rw [zadd, filter_ne_self l m hne, zinsert_append l m sc hle]

/-- Invariant of `cache_message` folded from a fresh user over messages with
strictly increasing timestamps: the index holds exactly the newest
`RECENT_MESSAGES_COUNT` of them, scored by their timestamps. -/
theorem cacheMessages_index (msgs : List ChatMessage)
    (h : msgs.Pairwise (fun a b => a.created_at < b.created_at)) :
    (cacheMessages chatEmpty msgs).index
      = (msgs.drop (msgs.length - RECENT_MESSAGES_COUNT)).map
          (fun x => (x, x.created_at)) := by
  have hK : 1 ≤ RECENT_MESSAGES_COUNT := by norm_num [RECENT_MESSAGES_COUNT]
  induction msgs using List.reverseRecOn with
  | nil => rfl
  | append_singleton q m ih =>
      have hsplit := List.pairwise_append.mp h
      have hq := hsplit.1
      have hcross : ∀ a ∈ q, a.created_at < m.created_at := by
        intro a ha
        exact hsplit.2.2 a ha m (List.mem_singleton_self m)
      have hidx : (cacheMessages chatEmpty (q ++ [m])).index
          = ztrimKeep RECENT_MESSAGES_COUNT
              (zadd (cacheMessages chatEmpty q).index m m.created_at) := by
        have hstep : cacheMessages chatEmpty (q ++ [m])
            = (cache_message m (cacheMessages chatEmpty q)).1 := by
          simp [cacheMessages, List.foldl_append]
        rw [hstep]; rfl
      rw [hidx, ih hq]
      have hmemq : ∀ p ∈ (q.drop (q.length - RECENT_MESSAGES_COUNT)).map
          (fun x => (x, x.created_at)), ∃ x, x ∈ q ∧ p = (x, x.created_at) := by
        intro p hp
        obtain ⟨x, hx, hpx⟩ := List.mem_map.mp hp
        exact ⟨x, List.drop_subset _ _ hx, hpx.symm⟩
      have hne : ∀ p ∈ (q.drop (q.length - RECENT_MESSAGES_COUNT)).map
          (fun x => (x, x.created_at)), p.1 ≠ m := by
        intro p hp
        obtain ⟨x, hxq, hpx⟩ := hmemq p hp
        rw [hpx]
        show x ≠ m
        intro hxm
        rw [hxm] at hxq
        exact lt_irrefl _ (hcross m hxq)
      have hle : ∀ p ∈ (q.drop (q.length - RECENT_MESSAGES_COUNT)).map
          (fun x => (x, x.created_at)), p.2 ≤ m.created_at := by
        intro p hp
        obtain ⟨x, hxq, hpx⟩ := hmemq p hp
        rw [hpx]
        show x.created_at ≤ m.created_at
        exact (hcross x hxq).le
      rw [zadd_append _ _ _ hne hle]
      have hlen : ((q.drop (q.length - RECENT_MESSAGES_COUNT)).map
          (fun x : ChatMessage => (x, x.created_at))).length
          = q.length - (q.length - RECENT_MESSAGES_COUNT) := by
        simp
      by_cases hcase : q.length < RECENT_MESSAGES_COUNT
      · have h2 : ((q.drop (q.length - RECENT_MESSAGES_COUNT)).map
            (fun x : ChatMessage => (x, x.created_at)) ++ [(m, m.created_at)]).length
              - RECENT_MESSAGES_COUNT = 0 := by
          simp only [List.length_append, hlen, List.length_singleton]
          omega
        have h0 : q.length - RECENT_MESSAGES_COUNT = 0 := by omega
        have h1 : (q ++ [m]).length - RECENT_MESSAGES_COUNT = 0 := by
          simp only [List.length_append, List.length_singleton]
          omega
        rw [ztrimKeep, h2, List.drop_zero, h1, List.drop_zero, h0, List.drop_zero]
        simp
      · have h2 : ((q.drop (q.length - RECENT_MESSAGES_COUNT)).map
            (fun x : ChatMessage => (x, x.created_at)) ++ [(m, m.created_at)]).length
              - RECENT_MESSAGES_COUNT = 1 := by
          simp only [List.length_append, hlen, List.length_singleton]
          omega
        have h1 : (q ++ [m]).length - RECENT_MESSAGES_COUNT
            = q.length + 1 - RECENT_MESSAGES_COUNT := by
          simp
        have hdropA : (q ++ [m]).drop (q.length + 1 - RECENT_MESSAGES_COUNT)
            = q.drop (q.length + 1 - RECENT_MESSAGES_COUNT) ++ [m] := by
          apply List.drop_append_of_le_length
          omega
        rw [ztrimKeep, h2, h1, hdropA]
        have h3 : (1 : Nat) ≤ ((q.drop (q.length - RECENT_MESSAGES_COUNT)).map
            (fun x : ChatMessage => (x, x.created_at))).length := by
          rw [hlen]; omega
        rw [List.drop_append_of_le_length h3]
        rw [← List.map_drop]
        rw [List.drop_drop]
        have h5 : q.length - RECENT_MESSAGES_COUNT + 1
            = q.length + 1 - RECENT_MESSAGES_COUNT := by omega
        rw [h5]
        simp

/-- C8: every `cache_message` call leaves at most `RECENT_MESSAGES_COUNT`
entries in the per-user index, and for any sequence of messages with strictly
increasing timestamps cached from a fresh user the index holds exactly the
most recent fifty of them — in particular, sixty calls leave the last
fifty. -/
theorem cache_message_retains_recent (msgs : List ChatMessage)
    (hmono : msgs.Pairwise (fun a b => a.created_at < b.created_at)) :
    (∀ (m : ChatMessage) (st : ChatStore),
        ((cache_message m st).1.index).length ≤ RECENT_MESSAGES_COUNT)
    ∧ (cacheMessages chatEmpty msgs).index
        = (msgs.drop (msgs.length - RECENT_MESSAGES_COUNT)).map
            (fun x => (x, x.created_at)) := by
  constructor
  · intro m st
    exact ztrimKeep_length_le _ _
  · exact cacheMessages_index msgs hmono

/-- Witness for C8: sixty concrete messages leave exactly the last fifty in
the index. -/
theorem cache_message_retains_recent_witness :
    (cacheMessages chatEmpty demoMsgs).index
      = (demoMsgs.drop (demoMsgs.length - RECENT_MESSAGES_COUNT)).map
          (fun x => (x, x.created_at)) :=
  (cache_message_retains_recent demoMsgs (by decide)).2

/-- Python's `min` over a non-empty list is an element of it. -/
theorem foldl_min_mem (a : ℚ) (l : List ℚ) : l.foldl min a ∈ a :: l := by
  induction l generalizing a with
  | nil => simp
  | cons x xs ih =>
      rw [List.foldl_cons]
      rcases List.mem_cons.mp (ih (min a x)) with h1 | h2
      · rcases min_choice a x with hm | hm
        · rw [h1, hm]; exact List.mem_cons_self _ _
        · rw [h1, hm]
          exact List.mem_cons_of_mem _ (List.mem_cons_self _ _)
      · exact List.mem_cons_of_mem _ (List.mem_cons_of_mem _ h2)

/-- Python's `min` over a non-empty list bounds it from below. -/
theorem foldl_min_le (a : ℚ) (l : List ℚ) : ∀ y ∈ a :: l, l.foldl min a ≤ y := by
  induction l generalizing a with
  | nil =>
      intro y hy
      simp [List.mem_singleton.mp hy]
  | cons x xs ih =>
      intro y hy
      rw [List.foldl_cons]
      rcases List.mem_cons.mp hy with h1 | h1
      · rw [h1]
        exact le_trans (ih (min a x) _ (List.mem_cons_self _ _)) (min_le_left a x)
      · rcases List.mem_cons.mp h1 with h2 | h2
        · rw [h2]
          exact le_trans (ih (min a x) _ (List.mem_cons_self _ _)) (min_le_right a x)
        · exact ih (min a x) y (List.mem_cons_of_mem _ h2)

/-- Python's `max` over a non-empty list is an element of it. -/
theorem foldl_max_mem (a : ℚ) (l : List ℚ) : l.foldl max a ∈ a :: l := by
  induction l generalizing a with
  | nil => simp
  | cons x xs ih =>
      rw [List.foldl_cons]
      rcases List.mem_cons.mp (ih (max a x)) with h1 | h2
      · rcases max_choice a x with hm | hm
        · rw [h1, hm]; exact List.mem_cons_self _ _
        · rw [h1, hm]
          exact List.mem_cons_of_mem _ (List.mem_cons_self _ _)
      · exact List.mem_cons_of_mem _ (List.mem_cons_of_mem _ h2)

/-- Python's `max` over a non-empty list bounds it from above. -/
theorem foldl_max_ge (a : ℚ) (l : List ℚ) : ∀ y ∈ a :: l, y ≤ l.foldl max a := by
  induction l generalizing a with
  | nil =>
      intro y hy
      simp [List.mem_singleton.mp hy]
  | cons x xs ih =>
      intro y hy
      rw [List.foldl_cons]
      rcases List.mem_cons.mp hy with h1 | h1
      · rw [h1]
        exact le_trans (le_max_left a x) (ih (max a x) _ (List.mem_cons_self _ _))
      · rcases List.mem_cons.mp h1 with h2 | h2
        · rw [h2]
          exact le_trans (le_max_right a x) (ih (max a x) _ (List.mem_cons_self _ _))
        · exact ih (max a x) y (List.mem_cons_of_mem _ h2)

/-- C2: `calculate_daily_average` returns `None` exactly when the list holds
no non-null AQI (in particular for the empty list); otherwise `avg_aqi` is
the arithmetic mean — sum over count — of exactly the non-null AQI values,
and `min_aqi` / `max_aqi` are the minimum and maximum of that same set. -/
theorem daily_average_aqi_spec (rs : List WardReading) :
    (calculate_daily_average rs = none ↔ rs.filterMap (fun r => r.aqi) = [])
    ∧ ∀ agg, calculate_daily_average rs = some agg →
        agg.avg_aqi
            = (rs.filterMap (fun r => r.aqi)).sum
                / ((rs.filterMap (fun r => r.aqi)).length : ℚ)
          ∧ agg.min_aqi ∈ rs.filterMap (fun r => r.aqi)
          ∧ (∀ x ∈ rs.filterMap (fun r => r.aqi), agg.min_aqi ≤ x)
          ∧ agg.max_aqi ∈ rs.filterMap (fun r => r.aqi)
          ∧ (∀ x ∈ rs.filterMap (fun r => r.aqi), x ≤ agg.max_aqi) := by
  rcases rs with _ | ⟨r0, rs1⟩
  · constructor
    · simp [calculate_daily_average]
    · intro agg h
      simp [calculate_daily_average] at h
  · cases hfm : (r0 :: rs1).filterMap (fun r => r.aqi) with
    | nil =>
        constructor
        · simp [calculate_daily_average, hfm]
        · intro agg h
          simp [calculate_daily_average, hfm] at h
    | cons a rest =>
        constructor
        · simp [calculate_daily_average, hfm]
        · intro agg h
          simp only [calculate_daily_average, List.isEmpty_cons, hfm] at h
          simp only [Bool.false_eq_true, if_false, Option.some.injEq] at h
          subst h
          exact ⟨rfl, foldl_min_mem a rest, foldl_min_le a rest,
            foldl_max_mem a rest, foldl_max_ge a rest⟩

/-- C6: in a non-null aggregate, each pollutant mean is computed
independently from exactly the readings in which that pollutant is non-null,
and is `None` — not zero — when no reading carries that pollutant. -/
theorem daily_average_pollutants_spec (rs : List WardReading) :
    ∀ agg, calculate_daily_average rs = some agg →
      (agg.avg_pm25
          = if rs.filterMap (fun r => r.pm25) = [] then none
            else some ((rs.filterMap (fun r => r.pm25)).sum
              / ((rs.filterMap (fun r => r.pm25)).length : ℚ)))
      ∧ (agg.avg_pm10
          = if rs.filterMap (fun r => r.pm10) = [] then none
            else some ((rs.filterMap (fun r => r.pm10)).sum
              / ((rs.filterMap (fun r => r.pm10)).length : ℚ)))
      ∧ (agg.avg_no2
          = if rs.filterMap (fun r => r.no2) = [] then none
            else some ((rs.filterMap (fun r => r.no2)).sum
              / ((rs.filterMap (fun r => r.no2)).length : ℚ)))
      ∧ (agg.avg_o3
          = if rs.filterMap (fun r => r.o3) = [] then none
            else some ((rs.filterMap (fun r => r.o3)).sum
              / ((rs.filterMap (fun r => r.o3)).length : ℚ))) := by
  intro agg h
  rcases rs with _ | ⟨r0, rs1⟩
  · simp [calculate_daily_average] at h
  · cases hfm : (r0 :: rs1).filterMap (fun r => r.aqi) with
    | nil => simp [calculate_daily_average, hfm] at h
    | cons a rest =>
        simp only [calculate_daily_average, List.isEmpty_cons, hfm] at h
        simp only [Bool.false_eq_true, if_false, Option.some.injEq] at h
        subst h
        refine ⟨?_, ?_, ?_, ?_⟩ <;> simp [List.isEmpty_iff]

/-- Evaluation of the aggregate on the three demo readings: AQI values are
100 and 50, PM2.5 values 80 and 60, NO2 only 20, PM10 and O3 absent. -/
theorem demo_aggregate_eq : calculate_daily_average demoReadings = some demoAgg := by
  simp [calculate_daily_average, demoReadings, demoAgg]
  norm_num

/-- Witness for C2: on the demo readings the minimum is attained and bounds
the non-null AQI values from below. -/
theorem daily_average_aqi_spec_witness :
    demoAgg.min_aqi ∈ demoReadings.filterMap (fun r => r.aqi)
    ∧ ∀ x ∈ demoReadings.filterMap (fun r => r.aqi), demoAgg.min_aqi ≤ x :=
  ⟨((daily_average_aqi_spec demoReadings).2 demoAgg demo_aggregate_eq).2.1,
   ((daily_average_aqi_spec demoReadings).2 demoAgg demo_aggregate_eq).2.2.1⟩

/-- Witness for C6: on the demo readings PM2.5 has a mean over its two
non-null values while PM10, absent everywhere, stays `None`. -/
theorem daily_average_pollutants_spec_witness :
    (demoAgg.avg_pm25
        = if demoReadings.filterMap (fun r => r.pm25) = [] then none
          else some ((demoReadings.filterMap (fun r => r.pm25)).sum
            / ((demoReadings.filterMap (fun r => r.pm25)).length : ℚ)))
    ∧ (demoAgg.avg_pm10
        = if demoReadings.filterMap (fun r => r.pm10) = [] then none
          else some ((demoReadings.filterMap (fun r => r.pm10)).sum
            / ((demoReadings.filterMap (fun r => r.pm10)).length : ℚ))) :=
  ⟨(daily_average_pollutants_spec demoReadings demoAgg demo_aggregate_eq).1,
   (daily_average_pollutants_spec demoReadings demoAgg demo_aggregate_eq).2.1⟩

/-- Looking an association key up right after setting it yields the set value. -/
theorem assocGet_assocSet {α : Type} (l : List (String × α)) (k : String) (v : α) :
    assocGet (assocSet l k v) k = some v := by
  induction l with
  | nil => simp [assocSet, assocGet]
  | cons p rest ih =>
      obtain ⟨k1, v1⟩ := p
      by_cases h : k1 = k
      · simp [assocSet, assocGet, h]
      · simp [assocSet, assocGet, h]
        exact ih

/-- The inserted member/score pair is in the sorted set after insertion. -/
theorem zinsert_self_mem {M : Type} (l : List (M × ℚ)) (m : M) (sc : ℚ) :
    (m, sc) ∈ zinsert l m sc := by
  induction l with
  | nil => simp [zinsert]
  | cons p rest ih =>
      obtain ⟨m1, sc1⟩ := p
      by_cases h : sc < sc1
      · simp [zinsert, h]
      · simp [zinsert, h]
        right
        exact ih

/-- The ZADDed member is among the members of the resulting sorted set. -/
theorem zadd_self_mem {M : Type} [DecidableEq M] (l : List (M × ℚ)) (m : M) (sc : ℚ) :
    m ∈ (zadd l m sc).map Prod.fst :=
  List.mem_map.mpr ⟨(m, sc), zinsert_self_mem _ _ _, rfl⟩

/-- C5: storing a non-null reading writes it into the ward's day set, so a
`get_hourly_data_from_redis` for the same ward and the same (current) date on
the resulting store returns a list containing that reading — and the store
call itself then raises `NameError` from its final `logger.info`, because
aqi_collector.py never defines `logger`; the writes persist regardless. -/
theorem store_then_get_roundtrip (ward : Ward) (r : WardReading) (now : NowInfo)
    (st : AqiStore) :
    (store_hourly_data_in_redis ward (some r) now st).2 = some PyErr.nameError
    ∧ r ∈ get_hourly_data_from_redis ward.ward_no now.dateStr
        (store_hourly_data_in_redis ward (some r) now st).1 := by
  constructor
  · rfl
  · simp only [store_hourly_data_in_redis, get_hourly_data_from_redis, assocGet_assocSet]
    exact zadd_self_mem _ _ _

/-- Witness for C5: a concrete reading stored for ward 7 is found by the
read-back for the same ward and date, while the store call raises. -/
theorem store_then_get_roundtrip_witness :
    (store_hourly_data_in_redis ⟨"W", "7", 28, 77⟩
        (some ⟨some 150, some 80, none, none, none, "t", "f"⟩)
        ⟨"2025-01-01", 4, 1000, "f"⟩ ⟨[], []⟩).2 = some PyErr.nameError
    ∧ (⟨some 150, some 80, none, none, none, "t", "f"⟩ : WardReading)
        ∈ get_hourly_data_from_redis "7" "2025-01-01"
            (store_hourly_data_in_redis ⟨"W", "7", 28, 77⟩
              (some ⟨some 150, some 80, none, none, none, "t", "f"⟩)
              ⟨"2025-01-01", 4, 1000, "f"⟩ ⟨[], []⟩).1 :=
  store_then_get_roundtrip ⟨"W", "7", 28, 77⟩ ⟨some 150, some 80, none, none, none, "t", "f"⟩
    ⟨"2025-01-01", 4, 1000, "f"⟩ ⟨[], []⟩

/-- C3: contrary to the claim, `fetch_aqi_for_ward` raises on out-of-range
coordinates, on a provider HTTP error or timeout, and on a provider status
other than `"ok"` — each of those paths hits a `logger.…` call and `logger`
is an undefined name in aqi_collector.py, so `NameError` escapes the
function.  Only the missing-AQI-field path returns `None` as claimed. -/
theorem fetch_raises_instead_of_none :
    fetch_aqi_for_ward true 91 0 ProviderOutcome.httpError "t"
        = Except.error PyErr.nameError
    ∧ fetch_aqi_for_ward true 20 77 ProviderOutcome.httpError "t"
        = Except.error PyErr.nameError
    ∧ fetch_aqi_for_ward true 20 77
        (ProviderOutcome.response "error" none none none none none none none) "t"
        = Except.error PyErr.nameError
    ∧ fetch_aqi_for_ward true 20 77
        (ProviderOutcome.response "ok" none none (some 80) none none none none) "t"
        = Except.ok none :=
  ⟨rfl, rfl, rfl, rfl⟩

/-- C4: contrary to the claim, `fetch_and_store_hourly_data` raises
`NameError` from its very first `logger.info` statement — `logger` is never
defined in aqi_collector.py — so the batch aborts before attempting any ward
and the store is untouched. -/
theorem hourly_batch_raises_namerror (tokenSet : Bool) (wards : List Ward)
    (oc : Ward → ProviderOutcome) (now : NowInfo) (st : AqiStore) :
    fetch_and_store_hourly_data tokenSet wards oc now st
      = (st, Except.error PyErr.nameError) := rfl

/-- Witness for C4: one healthy ward with a perfectly good provider response
still yields the immediate `NameError` and an unchanged store. -/
theorem hourly_batch_raises_namerror_witness :
    fetch_and_store_hourly_data true [⟨"W", "7", 28, 77⟩]
        (fun _ => ProviderOutcome.response "ok" (some 150) none none none none none none)
        ⟨"2025-01-01", 4, 1000, "f"⟩ ⟨[], []⟩
      = (⟨[], []⟩, Except.error PyErr.nameError) :=
  hourly_batch_raises_namerror true [⟨"W", "7", 28, 77⟩]
    (fun _ => ProviderOutcome.response "ok" (some 150) none none none none none none)
    ⟨"2025-01-01", 4, 1000, "f"⟩ ⟨[], []⟩

/-- C10: a request whose path is exactly one of the exempt paths is forwarded
to the downstream handler untouched: the handler's response comes back as is
— never a 429 — and the counter store is left exactly as it was, so no
rate-limit counter is read, created or incremented, regardless of any prior
traffic recorded in the store. -/
theorem exempt_paths_bypass_rate_limiter (req : HttpRequest) (next : HttpResponse)
    (store : List (String × RLCounter)) (now : Nat) (storeFails : Bool)
    (h : req.path ∈ EXEMPT_PATHS) :
    rate_limit_dispatch req next store now storeFails = (next, store) := by
  unfold rate_limit_dispatch
  rw [if_pos h]

/-- Witness for C10: a health-check request passes through even though the
store already holds an exhausted counter for that very path and client. -/
theorem exempt_paths_bypass_rate_limiter_witness :
    rate_limit_dispatch ⟨"GET", "/api/health", "", some "1.2.3.4", none⟩ ⟨200, "ok", []⟩
      [("ratelimit:/api/health:1.2.3.4", ⟨999, 1000000⟩)] 5 false
      = (⟨200, "ok", []⟩, [("ratelimit:/api/health:1.2.3.4", ⟨999, 1000000⟩)]) :=
  exempt_paths_bypass_rate_limiter ⟨"GET", "/api/health", "", some "1.2.3.4", none⟩
    ⟨200, "ok", []⟩ [("ratelimit:/api/health:1.2.3.4", ⟨999, 1000000⟩)] 5 false (by decide)

/-- C9: contrary to the claim, a GET on a cacheable route whose key is
present in the store is NOT answered from the cache: the hit path constructs
a `JSONResponse`, a name middleware/cache.py never imports, so `NameError` is
raised, the outer handler catches it, and the downstream handler is invoked
(once) with its response returned bare — no cache-hit tag, store unchanged.
The first conjunct shows the key really is present; the last that the
returned body is the handler's, not the cached one. -/
theorem cache_hit_not_served_from_cache :
    assocGet demoCacheStore (generate_cache_key demoDailyReq) = some (demoCachedBlob, 3600)
    ∧ cache_dispatch demoDailyReq demoNext demoCacheStore = (demoNext, demoCacheStore, 1)
    ∧ demoNext.body ≠ demoCachedBlob.content := by
  refine ⟨rfl, rfl, ?_⟩
  decide
